import Mathlib

set_option maxHeartbeats 1000000

/-!
Verification development for the execution gate of the Excel-based chatbot
repository (`src/tools.py`): the static validator `validate_expression`
(lines 79-108) and the sandboxed executor `_tool` (lines 127-205).

The Python abstract syntax tree is embedded as Lean inductive types covering
the node kinds the gate's policy inspects (`Import`, `ImportFrom`, `Name`,
`Call`, `Attribute`) together with the statement and expression forms needed
to run representative candidate programs (assignments, subscripts, `if`,
binary operations, constants).  `ast.walk`'s breadth-first traversal is
reproduced exactly, because `validate_expression` raises at the first
violating node in that order.

The executor is embedded as a state-passing function: the process-wide
standard-output sink, the shared dataset dictionary and the per-execution
local namespace are threaded explicitly.  The candidate program's runtime
behaviour is given by a big-step interpreter for the embedded fragment;
exceptions are the `Except.error` channel and carry the Python exception
message.  Python's parser itself is not re-implemented: a `Candidate` packs
the generated source text together with the parse result (`ast.parse`,
line 89), and each concrete candidate used below states its tree explicitly.
-/

namespace ExcelChatbot

/-- Expression contexts of the Python `ast` module: `Load`, `Store`, `Del`. -/
inductive Ctx
  | load
  | store
  | del
deriving DecidableEq

/-- Literal constants (`ast.Constant`): integers, strings, `None`. -/
inductive Const
  | intC (n : Int)
  | strC (s : String)
  | noneC
deriving DecidableEq

/-- Binary operators of the modeled fragment (`ast.Add`, `ast.Div`). -/
inductive BinOp
  | add
  | divide
deriving DecidableEq

/-- Python expressions (`ast.expr`), restricted to the node kinds the
validator inspects plus the forms needed to execute representative
candidates.  `attributeExpr` is `ast.Attribute`, `subscript` is
`ast.Subscript` (with the post-3.9 plain-expression slice). -/
inductive Expr
  | name (id : String) (ctx : Ctx)
  | constant (c : Const)
  | attributeExpr (value : Expr) (attr : String) (ctx : Ctx)
  | call (func : Expr) (args : List Expr)
  | subscript (value : Expr) (index : Expr) (ctx : Ctx)
  | binop (op : BinOp) (left : Expr) (right : Expr)

/-- Python statements (`ast.stmt`).  `imp` is `ast.Import` (listing the
names of the modules it brings in), `impFrom` is `ast.ImportFrom`, and
`delStmt` is `ast.Delete`. -/
inductive Stmt
  | exprStmt (value : Expr)
  | assign (targets : List Expr) (value : Expr)
  | ifStmt (test : Expr) (body : List Stmt) (orelse : List Stmt)
  | imp (names : List String)
  | impFrom (module : String) (names : List String)
  | delStmt (targets : List Expr)

/-- The root node produced by `ast.parse(expression, mode='exec')`
(`ast.Module`). -/
structure PyModule where
  body : List Stmt

/-- A candidate program: the generated source text (after the code-fence
stripping of `tools.py` line 147) together with the result of
`ast.parse(text, mode='exec')` — `Except.error` carries the `SyntaxError`
message.  The CPython parser is external to the embedding, so each concrete
candidate below states its parse tree explicitly. -/
structure Candidate where
  text : String
  parsed : Except String PyModule

/-! Structural sizes, used to justify the fuel bound of the breadth-first
walk below. -/

mutual

def esize : Expr → Nat
  | .name _ _ => 1
  | .constant _ => 1
  | .attributeExpr v _ _ => 1 + esize v
  | .call f args => 1 + esize f + esizeList args
  | .subscript v i _ => 1 + esize v + esize i
  | .binop _ l r => 1 + esize l + esize r

def esizeList : List Expr → Nat
  | [] => 0
  | e :: es => esize e + esizeList es

end

mutual

def ssize : Stmt → Nat
  | .exprStmt e => 1 + esize e
  | .assign ts v => 1 + esizeList ts + esize v
  | .ifStmt t b o => 1 + esize t + ssizeList b + ssizeList o
  | .imp _ => 1
  | .impFrom _ _ => 1
  | .delStmt ts => 1 + esizeList ts

def ssizeList : List Stmt → Nat
  | [] => 0
  | s :: ss => ssize s + ssizeList ss

end

/-- A node of the syntax tree, as yielded by `ast.walk`: the module root, a
statement, or an expression.  Leaf helper nodes that `ast.walk` also yields
(`ast.alias`, the `Load`/`Store`/`Del` context objects) are omitted: they
are childless and match none of the validator's checks, so dropping them
changes neither the relative breadth-first order of the remaining nodes nor
the first violation found. -/
inductive Node
  | mod (m : PyModule)
  | stmt (s : Stmt)
  | expr (e : Expr)

/-- Child nodes in field order, following `ast.iter_child_nodes`: `Assign`
yields its targets then its value, `If` yields test, body, orelse, `Call`
yields its callee then its arguments, `Subscript` yields value then slice. -/
def children : Node → List Node
  | .mod m => m.body.map Node.stmt
  | .stmt (.exprStmt e) => [.expr e]
  | .stmt (.assign ts v) => ts.map Node.expr ++ [.expr v]
  | .stmt (.ifStmt t b o) => .expr t :: (b.map Node.stmt ++ o.map Node.stmt)
  | .stmt (.imp _) => []
  | .stmt (.impFrom _ _) => []
  | .stmt (.delStmt ts) => ts.map Node.expr
  | .expr (.name _ _) => []
  | .expr (.constant _) => []
  | .expr (.attributeExpr v _ _) => [.expr v]
  | .expr (.call f args) => .expr f :: args.map Node.expr
  | .expr (.subscript v i _) => [.expr v, .expr i]
  | .expr (.binop _ l r) => [.expr l, .expr r]

def nsize : Node → Nat
  | .mod m => 1 + ssizeList m.body
  | .stmt s => ssize s
  | .expr e => esize e

def totalSize (ns : List Node) : Nat := (ns.map nsize).sum

/-- Breadth-first traversal, fuel-indexed: one unit of fuel per level.
`ast.walk` maintains a deque seeded with the root, repeatedly popping a node
and appending its children, which yields the nodes level by level in parent
order; that level sequence is exactly this recursion. -/
def walkSteps : Nat → List Node → List Node
  | 0, _ => []
  | _ + 1, [] => []
  | fuel + 1, n :: ns => (n :: ns) ++ walkSteps fuel (((n :: ns).map children).flatten)

/-- The node sequence of `ast.walk(tree)`.  The fuel `nsize (Node.mod m)`
dominates the number of levels: every node has positive size and each level
strictly decreases the total size (`walkSteps_fuel_irrel` below shows any
fuel at least the total size gives the same list). -/
def walk (m : PyModule) : List Node := walkSteps (nsize (Node.mod m)) [Node.mod m]

/-- The prohibited module identifiers of `validate_expression`
(`tools.py` line 85). -/
def PROHIBITED_MODULES : List String :=
  ["os", "subprocess", "shutil", "sys", "builtins", "socket"]

/-- The prohibited callable names of `validate_expression`
(`tools.py` line 86). -/
def PROHIBITED_FUNCTIONS : List String :=
  ["eval", "exec", "open", "compile", "__import__", "getattr", "input"]

/-- Decides whether `needle` occurs as a contiguous substring of `hay`,
at the character-list level: Python's `needle in hay` on strings. -/
def substrB : List Char → List Char → Bool
  | n, [] => n.isEmpty
  | n, c :: t => n.isPrefixOf (c :: t) || substrB n t

/-- Python's substring test `needle in hay`, used by the validator's
double-underscore rule (`tools.py` line 106). -/
def containsSub (needle hay : String) : Bool := substrB needle.data hay.data

/-- The per-node checks in the body of the `for node in ast.walk(tree)` loop
(`tools.py` lines 94-107): the rejection reason this node triggers, if any.
A node is at most one of `Import`/`ImportFrom`, `Name`, `Call`, so the three
sequential `if` statements of the source amount to one case split. -/
def checkNode : Node → Option String
  | .stmt (.imp _) => some ("Expression not valid. Import not allowed.")
  | .stmt (.impFrom _ _) => some ("Expression not valid. Import not allowed.")
  | .expr (.name id _) =>
      if id ∈ PROHIBITED_MODULES then some ("Expression not valid. Module not allowed.")
      else none
  | .expr (.call (.name fid _) _) =>
      if fid ∈ PROHIBITED_FUNCTIONS then
        some ("Expression not valid. Hazardous expression detected: " ++ fid)
      else none
  | .expr (.call (.attributeExpr _ a _) _) =>
      if a ∈ PROHIBITED_FUNCTIONS || containsSub ("__") a then
        some ("Expression not valid. Hazardous expression detected: " ++ a)
      else none
  | _ => none

/-- `validate_expression` (`tools.py` lines 79-108): parse failure is the
`ValueError` of line 91; otherwise the walk raises at the first node whose
check fires, and if no node fires the parsed tree is returned (the
`compile(tree, ...)` of line 152 is the identity on accepted trees in this
embedding). -/
def validate_expression (c : Candidate) : Except String PyModule :=
  match c.parsed with
  | .error e => .error ("Expression not valid: " ++ e)
  | .ok tree =>
      match (walk tree).findSome? checkNode with
      | some r => .error r
      | none => .ok tree

/-- The attribute names of all `ast.Attribute` nodes of a tree, in walk
order (used to state that a program's "only attribute access" is a given
one). -/
def attrNames (m : PyModule) : List String :=
  (walk m).filterMap (fun n =>
    match n with
    | Node.expr (.attributeExpr _ a _) => some a
    | _ => none)

/-- Scans a tree for a `Call` whose callee is an `Attribute` with a
double-underscore in the attribute name. -/
def hasDunderCalleeB (m : PyModule) : Bool :=
  (walk m).any (fun n =>
    match n with
    | Node.expr (.call (.attributeExpr _ a _) _) => containsSub ("__") a
    | _ => false)

/-- Scans a tree for an import statement (direct or `from` form). -/
def hasImportB (m : PyModule) : Bool :=
  (walk m).any (fun n =>
    match n with
    | Node.stmt (.imp _) => true
    | Node.stmt (.impFrom _ _) => true
    | _ => false)

/-- Scans a tree for a bare `Name` node (in any context) whose identifier is
a prohibited module name. -/
def hasProhibitedNameB (m : PyModule) : Bool :=
  (walk m).any (fun n =>
    match n with
    | Node.expr (.name id _) => id ∈ PROHIBITED_MODULES
    | _ => false)

/-! The sandboxed executor `_tool` (`tools.py` lines 127-205).

Runtime values of the modeled fragment.  The shared dataset dictionary
(`data`, the dict of DataFrames closed over by `_tool`) is a heap cell:
the value `dfHandle` is the reference bound to the global name `df`
(line 185), and the cell's current contents are the `ds` field of the
execution state.  Sheet values inside the dict are opaque `Value`s (in the
source they are DataFrames; a candidate may also store any object into the
dict). -/
inductive Value
  | intV (n : Int)
  | strV (s : String)
  | noneV
  | dfHandle
  | pdModule
  | builtinsDict
  | builtin (bname : String)
deriving DecidableEq

/-- The dataset dictionary: insertion-ordered key/value pairs, Python dict
semantics for a string-keyed dict. -/
abbrev Dataset := List (String × Value)

/-- Replaces the value at an existing key (keeping its position, as a Python
dict does) or appends a new binding. -/
def setKey : List (String × Value) → String → Value → List (String × Value)
  | [], k, v => [(k, v)]
  | (k', v') :: rest, k, v =>
      if k' = k then (k, v) :: rest else (k', v') :: setKey rest k v

/-- Python's `str()` on the modeled values (used by `print`). Only the
integer, string and `None` cases are exercised by the development; the
remaining representations are stand-ins. -/
def pyStr : Value → String
  | .intV n => toString n
  | .strV s => s
  | .noneV => "None"
  | .dfHandle => "<df>"
  | .pdModule => "<module 'pandas'>"
  | .builtinsDict => "<builtins dict>"
  | .builtin bn => "<built-in function " ++ bn ++ ">"

/-- The restricted built-in table `safe_builtins` (`tools.py` lines
164-180), in source order. -/
def safe_builtins : List (String × Value) :=
  [("print", .builtin ("print")),
   ("len", .builtin ("len")),
   ("range", .builtin ("range")),
   ("str", .builtin ("str")),
   ("int", .builtin ("int")),
   ("float", .builtin ("float")),
   ("list", .builtin ("list")),
   ("dict", .builtin ("dict")),
   ("set", .builtin ("set")),
   ("min", .builtin ("min")),
   ("max", .builtin ("max")),
   ("sum", .builtin ("sum")),
   ("enumerate", .builtin ("enumerate")),
   ("zip", .builtin ("zip"))]

/-- The controlled global namespace `safe_globals` (`tools.py` lines
183-187): the restricted builtins, the dataset reference under the fixed
name `df`, and the pandas module under the fixed name `pd`. -/
def safe_globals : List (String × Value) :=
  [("__builtins__", Value.builtinsDict),
   ("df", Value.dfHandle),
   ("pd", Value.pdModule)]

/-- The mutable state of one execution: the contents of the shared dataset
dict (the heap cell `dfHandle` points to), the per-call local namespace
`safe_locals` (line 189), and the text accumulated in the capture buffer
`redirected_output` (line 160). -/
structure ExecState where
  ds : Dataset
  locals : List (String × Value)
  out : String
deriving DecidableEq

/-- The fresh execution state constructed for each call of `_tool`: the
dataset as passed in, empty locals (`safe_locals = {}`, line 189), empty
capture buffer (`StringIO()`, line 160). -/
def initState (data : Dataset) : ExecState :=
  { ds := data, locals := [], out := "" }

/-- Name resolution of `exec(code, safe_globals, safe_locals)` at module
level: locals, then globals, then the `__builtins__` table of the globals. -/
def lookupName (st : ExecState) (id : String) : Option Value :=
  match st.locals.lookup id with
  | some v => some v
  | none =>
      match safe_globals.lookup id with
      | some v => some v
      | none => safe_builtins.lookup id

/-- Python type name of a value, for `TypeError` messages. -/
def typeName : Value → String
  | .intV _ => "int"
  | .strV _ => "str"
  | .noneV => "NoneType"
  | .dfHandle => "dict"
  | .builtinsDict => "dict"
  | .pdModule => "module"
  | .builtin _ => "builtin_function_or_method"

/-- Python truthiness for the modeled values (the `dfHandle`/`pdModule`
cases are not exercised). -/
def truthy : Value → Bool
  | .intV n => decide (n ≠ 0)
  | .strV s => decide (s ≠ "")
  | .noneV => false
  | _ => true

/-- Application of one of the restricted builtins.  `print` writes its
space-separated arguments plus a newline to the capture buffer; `len` and
`str` are modeled on the value forms that can arise; the remaining allowed
builtins are outside the executable fragment and raise on the exception
channel. -/
def applyBuiltin (bname : String) (vs : List Value) (st : ExecState) :
    ExecState × Except String Value :=
  if bname = "print" then
    ({ st with out := st.out ++ String.intercalate (" ") (vs.map pyStr) ++ "\n" },
     .ok (.noneV))
  else if bname = "len" then
    match vs with
    | [.dfHandle] => (st, .ok (.intV (st.ds.length : Int)))
    | [.strV s] => (st, .ok (.intV (s.length : Int)))
    | [v] => (st, .error ("object of type '" ++ typeName v ++ "' has no len()"))
    | _ => (st, .error ("len() takes exactly one argument"))
  else if bname = "str" then
    match vs with
    | [v] => (st, .ok (.strV (pyStr v)))
    | _ => (st, .error ("str: call form outside the modeled fragment"))
  else
    (st, .error ("builtin '" ++ bname ++ "' outside the modeled fragment"))

/-- Calling a non-method value: builtins dispatch, everything else is the
Python `TypeError` for a non-callable. -/
def applyCallable (fv : Value) (vs : List Value) (st : ExecState) :
    ExecState × Except String Value :=
  match fv with
  | .builtin bname => applyBuiltin bname vs st
  | other => (st, .error ("'" ++ typeName other ++ "' object is not callable"))

/-- Method calls of the modeled fragment: `dict.clear` on the shared
dataset dict empties the heap cell in place; other methods raise on the
exception channel. -/
def applyMethod (ov : Value) (a : String) (vs : List Value) (st : ExecState) :
    ExecState × Except String Value :=
  match ov, a, vs with
  | .dfHandle, "clear", [] => ({ st with ds := [] }, .ok (.noneV))
  | _, _, _ => (st, .error ("method '" ++ a ++ "' outside the modeled fragment"))

/-- A binary operation on evaluated operands.  `1/0` raises Python's
`ZeroDivisionError` with message `division by zero`; a successful integer
division is represented by its integer value (the float result is outside
the fragment and is never relied on). -/
def applyBinOp (op : BinOp) (l r : Value) : Except String Value :=
  match op, l, r with
  | .add, .intV a, .intV b => .ok (.intV (a + b))
  | .add, .strV a, .strV b => .ok (.strV (a ++ b))
  | .divide, .intV _, .intV 0 => .error ("division by zero")
  | .divide, .intV a, .intV b => .ok (.intV (a / b))
  | _, _, _ =>
      .error ("unsupported operand type(s): '" ++ typeName l ++ "' and '" ++ typeName r ++ "'")

mutual

/-- Big-step evaluation of an expression: the state after evaluation (side
effects performed before an exception persist) and either the value or the
raised exception's message.  Attribute access outside call position and the
unlisted builtins are outside the executable fragment and raise on the
exception channel; the claims below only ever execute programs inside the
fragment. -/
def evalExpr : Expr → ExecState → ExecState × Except String Value
  | .constant (.intC n), st => (st, .ok (.intV n))
  | .constant (.strC s), st => (st, .ok (.strV s))
  | .constant .noneC, st => (st, .ok .noneV)
  | .name id _, st =>
      match lookupName st id with
      | some v => (st, .ok v)
      | none => (st, .error ("name '" ++ id ++ "' is not defined"))
  | .attributeExpr v a _, st =>
      match evalExpr v st with
      | (st', .error e) => (st', .error e)
      | (st', .ok _) =>
          (st', .error ("attribute '" ++ a ++ "' outside the modeled fragment"))
  | .call (.attributeExpr obj a _) args, st =>
      match evalExpr obj st with
      | (st', .error e) => (st', .error e)
      | (st', .ok ov) =>
          match evalArgs args st' with
          | (st'', .error e) => (st'', .error e)
          | (st'', .ok vs) => applyMethod ov a vs st''
  | .call f args, st =>
      match evalExpr f st with
      | (st', .error e) => (st', .error e)
      | (st', .ok fv) =>
          match evalArgs args st' with
          | (st'', .error e) => (st'', .error e)
          | (st'', .ok vs) => applyCallable fv vs st''
  | .subscript v i _, st =>
      match evalExpr v st with
      | (st', .error e) => (st', .error e)
      | (st', .ok vv) =>
          match evalExpr i st' with
          | (st'', .error e) => (st'', .error e)
          | (st'', .ok iv) =>
              match vv, iv with
              | .dfHandle, .strV k =>
                  match st''.ds.lookup k with
                  | some v => (st'', .ok v)
                  | none => (st'', .error ("'" ++ k ++ "'"))
              | _, _ => (st'', .error ("subscript outside the modeled fragment"))
  | .binop op l r, st =>
      match evalExpr l st with
      | (st', .error e) => (st', .error e)
      | (st', .ok lv) =>
          match evalExpr r st' with
          | (st'', .error e) => (st'', .error e)
          | (st'', .ok rv) => (st'', applyBinOp op lv rv)

/-- Left-to-right evaluation of call arguments. -/
def evalArgs : List Expr → ExecState → ExecState × Except String (List Value)
  | [], st => (st, .ok [])
  | e :: es, st =>
      match evalExpr e st with
      | (st', .error err) => (st', .error err)
      | (st', .ok v) =>
          match evalArgs es st' with
          | (st'', .error err) => (st'', .error err)
          | (st'', .ok vs) => (st'', .ok (v :: vs))

end

/-- Assignment to one target.  A `Name` target binds in the per-call local
namespace (top-level assignment under `exec` with separate globals and
locals); a `Subscript` target on the dataset reference mutates the shared
dict in place. -/
def assignTarget (t : Expr) (v : Value) (st : ExecState) :
    ExecState × Except String Unit :=
  match t with
  | .name id _ => ({ st with locals := setKey st.locals id v }, .ok ())
  | .subscript obj idx _ =>
      match evalExpr obj st with
      | (st', .error e) => (st', .error e)
      | (st', .ok ov) =>
          match evalExpr idx st' with
          | (st'', .error e) => (st'', .error e)
          | (st'', .ok iv) =>
              match ov, iv with
              | .dfHandle, .strV k => ({ st'' with ds := setKey st''.ds k v }, .ok ())
              | _, _ => (st'', .error ("subscript assignment outside the modeled fragment"))
  | _ => (st, .error ("assignment target outside the modeled fragment"))

/-- Assignment to each target of an `Assign` statement in turn. -/
def assignTargets : List Expr → Value → ExecState → ExecState × Except String Unit
  | [], _, st => (st, .ok ())
  | t :: ts, v, st =>
      match assignTarget t v st with
      | (st', .error e) => (st', .error e)
      | (st', .ok _) => assignTargets ts v st'

/-- Deletion of one target (`del x` removes the local binding). -/
def delTarget (t : Expr) (st : ExecState) : ExecState × Except String Unit :=
  match t with
  | .name id _ =>
      match st.locals.lookup id with
      | some _ =>
          ({ st with locals := st.locals.filter (fun p => p.1 != id) }, .ok ())
      | none => (st, .error ("name '" ++ id ++ "' is not defined"))
  | _ => (st, .error ("delete target outside the modeled fragment"))

/-- Deletion of each target of a `Delete` statement in turn. -/
def delTargets : List Expr → ExecState → ExecState × Except String Unit
  | [], st => (st, .ok ())
  | t :: ts, st =>
      match delTarget t st with
      | (st', .error e) => (st', .error e)
      | (st', .ok _) => delTargets ts st'

mutual

/-- Big-step execution of one statement.  An import statement executed
under the restricted builtins raises `ImportError: __import__ not found`
(the restricted table has no `__import__`); the validator in fact blocks it
earlier. -/
def execStmt : Stmt → ExecState → ExecState × Except String Unit
  | .exprStmt e, st =>
      match evalExpr e st with
      | (st', .error err) => (st', .error err)
      | (st', .ok _) => (st', .ok ())
  | .assign ts v, st =>
      match evalExpr v st with
      | (st', .error err) => (st', .error err)
      | (st', .ok val) => assignTargets ts val st'
  | .ifStmt t b o, st =>
      match evalExpr t st with
      | (st', .error err) => (st', .error err)
      | (st', .ok tv) => if truthy tv then execStmts b st' else execStmts o st'
  | .imp _, st => (st, .error ("__import__ not found"))
  | .impFrom _ _, st => (st, .error ("__import__ not found"))
  | .delStmt ts, st => delTargets ts st

/-- Execution of a statement sequence, stopping at the first exception. -/
def execStmts : List Stmt → ExecState → ExecState × Except String Unit
  | [], st => (st, .ok ())
  | s :: ss, st =>
      match execStmt s st with
      | (st', .error err) => (st', .error err)
      | (st', .ok _) => execStmts ss st'

end

/-- Python's whitespace test for `str.strip()` with no arguments, over the
ASCII whitespace characters (`string.whitespace`). -/
def isPyWhitespace (c : Char) : Bool :=
  c = ' ' || c = '\t' || c = '\n' || c = '\r' || c = '\x0b' || c = '\x0c'

/-- Python's `str.strip()`: drop leading and trailing whitespace. -/
def pyStrip (s : String) : String :=
  String.mk (((s.data.dropWhile isPyWhitespace).reverse.dropWhile isPyWhitespace).reverse)

/-- The process-wide standard-output sink `sys.stdout`: either whatever
object it held before the call (identified by a tag) or the capture buffer
`redirected_output`. -/
inductive Sink
  | external (id : Nat)
  | captureBuffer
deriving DecidableEq

/-- How `_tool` finishes: `returned` is a normal string return; `blocked` is
the `RuntimeError('Code not allowed: ...')` of line 154 propagating out of
the function. -/
inductive ToolResult
  | returned (s : String)
  | blocked (msg : String)
deriving DecidableEq

/-- Ghost trace of the executor's global side effects, in order: the
redirection of `sys.stdout` (line 161), the `exec` of the compiled candidate
(line 192), and the restoration of `sys.stdout` (line 197 or 204). -/
inductive Event
  | redirectE
  | executeE
  | restoreE
deriving DecidableEq

/-- The observable outcome of one `_tool` call: the result, the final value
of the process-wide `sys.stdout`, the final contents of the shared dataset
dict, and the ghost event trace. -/
structure ToolOutcome where
  result : ToolResult
  stdout : Sink
  dataFinal : Dataset
  events : List Event
deriving DecidableEq

/-- The sentinel returned when the captured output is empty or
whitespace-only (`tools.py` line 200, wording as in the source). -/
def NO_OUTPUT_MSG : String :=
  "Code was executed, but it did not produced a visible output."

/-- The `_tool` function from `validate_expression` onward (`tools.py`
lines 149-205).  A validation `ValueError` is re-raised as the blocking
`RuntimeError` before any redirection or execution.  Otherwise `sys.stdout`
is saved and redirected to the capture buffer, the compiled candidate is
executed against the fresh namespace, and on both the normal path (line 197)
and the exception path (line 204) the saved sink is restored before
returning; the exception path returns the failure message built from the
exception text and the generated source. -/
def runTool (c : Candidate) (data : Dataset) (stdout0 : Sink) : ToolOutcome :=
  match validate_expression c with
  | .error e =>
      { result := .blocked ("Code not allowed: " ++ e)
        stdout := stdout0
        dataFinal := data
        events := [] }
  | .ok tree =>
      let old_stdout := stdout0
      match execStmts tree.body (initState data) with
      | (st, .ok _) =>
          if pyStrip st.out = "" then
            { result := .returned NO_OUTPUT_MSG
              stdout := old_stdout
              dataFinal := st.ds
              events := [.redirectE, .executeE, .restoreE] }
          else
            { result := .returned (pyStrip st.out)
              stdout := old_stdout
              dataFinal := st.ds
              events := [.redirectE, .executeE, .restoreE] }
      | (st, .error e) =>
          { result := .returned
              ("Error executing Pandas code: " ++ e ++ "\nGenerated code:\n" ++ c.text)
            stdout := old_stdout
            dataFinal := st.ds
            events := [.redirectE, .executeE, .restoreE] }

/-! Syntactic mutation-freedom: the modeled fragment offers exactly two ways
for a candidate program to mutate the shared dataset dict — a method call on
an object (`df.clear()`) and a subscript (or attribute) assignment target
(`df['x'] = v`).  A program avoiding both leaves the dataset unchanged
(`execStmts_ds` below); name assignments and deletions only touch the
discarded per-call local namespace. -/

/-- Tests whether a call's callee is an attribute access (a method call). -/
def isAttrFunc : Expr → Bool
  | .attributeExpr _ _ _ => true
  | _ => false

mutual

/-- No sub-expression is a method call. -/
def mutFreeExpr : Expr → Bool
  | .name _ _ => true
  | .constant _ => true
  | .attributeExpr v _ _ => mutFreeExpr v
  | .call f args => !(isAttrFunc f) && (mutFreeExpr f && mutFreeArgs args)
  | .subscript v i _ => mutFreeExpr v && mutFreeExpr i
  | .binop _ l r => mutFreeExpr l && mutFreeExpr r

def mutFreeArgs : List Expr → Bool
  | [] => true
  | e :: es => mutFreeExpr e && mutFreeArgs es

end

/-- An assignment target that only binds a name (in the local namespace). -/
def mutFreeTarget : Expr → Bool
  | .name _ _ => true
  | _ => false

mutual

/-- No statement mutates the dataset: no method calls, assignment targets
are plain names. -/
def mutFreeStmt : Stmt → Bool
  | .exprStmt e => mutFreeExpr e
  | .assign ts v => ts.all mutFreeTarget && mutFreeExpr v
  | .ifStmt t b o => mutFreeExpr t && (mutFreeStmts b && mutFreeStmts o)
  | .imp _ => true
  | .impFrom _ _ => true
  | .delStmt _ => true

def mutFreeStmts : List Stmt → Bool
  | [] => true
  | s :: ss => mutFreeStmt s && mutFreeStmts ss

end


/-! Concrete candidate programs used in counterexamples and witnesses.
Each stated parse tree is what CPython's `ast.parse(text, mode='exec')`
produces for the stated text. -/

/-- Parse tree of `x = df.__class__`. -/
def c1cexTree : PyModule :=
  ⟨[.assign [.name ("x") .store]
      (.attributeExpr (.name ("df") .load) ("__class__") .load)]⟩

/-- Candidate whose only attribute access has a dunder name but is not the
callee of any call. -/
def cand_c1cex : Candidate := ⟨"x = df.__class__", .ok c1cexTree⟩

/-- Callee `df.__getattribute__` of the C1 witness call. -/
def c1witCallee : Expr :=
  .attributeExpr (.name ("df") .load) ("__getattribute__") .load

/-- The call expression `df.__getattribute__('shape')`. -/
def c1witCall : Expr := .call c1witCallee [.constant (.strC "shape")]

/-- Parse tree of `df.__getattribute__('shape')`. -/
def c1witTree : PyModule := ⟨[.exprStmt c1witCall]⟩

/-- Candidate calling a dunder attribute (dunder in callee position). -/
def cand_c1wit : Candidate := ⟨"df.__getattribute__('shape')", .ok c1witTree⟩

/-- Parse tree of `x = 1/0`. -/
def c3witTree : PyModule :=
  ⟨[.assign [.name ("x") .store]
      (.binop .divide (.constant (.intC 1)) (.constant (.intC 0)))]⟩

/-- Candidate that validates but raises `ZeroDivisionError` at run time. -/
def cand_c3wit : Candidate := ⟨"x = 1/0", .ok c3witTree⟩

/-- Parse tree of `import os` followed by `print(os.getcwd())`. -/
def c4witTree : PyModule :=
  ⟨[.imp ["os"],
    .exprStmt (.call (.name ("print") .load)
      [.call (.attributeExpr (.name ("os") .load) ("getcwd") .load) []])]⟩

/-- Candidate rejected by validation (spec scenario 2). -/
def cand_c4wit : Candidate := ⟨"import os\nprint(os.getcwd())", .ok c4witTree⟩

/-- Parse tree of `x = 5`. -/
def c7witTree : PyModule :=
  ⟨[.assign [.name ("x") .store] (.constant (.intC 5))]⟩

/-- Candidate that runs without printing (spec scenario 5). -/
def cand_c7wit : Candidate := ⟨"x = 5", .ok c7witTree⟩

/-- Parse tree of `sys` followed by `if 1:` / indented `import os`: the
nested import statement sits one level deeper than the `sys` name, so the
breadth-first walk meets `sys` first. -/
def c8cexTree : PyModule :=
  ⟨[.exprStmt (.name ("sys") .load),
    .ifStmt (.constant (.intC 1)) [.imp ["os"]] []]⟩

/-- Candidate containing an import whose rejection reason does not mention
the word import. -/
def cand_c8cex : Candidate := ⟨"sys\nif 1:\n    import os", .ok c8cexTree⟩

/-- Parse tree of `import os` followed by `print(os.getcwd())` (C8
witness). -/
def c8witTree : PyModule :=
  ⟨[.imp ["os"],
    .exprStmt (.call (.name ("print") .load)
      [.call (.attributeExpr (.name ("os") .load) ("getcwd") .load) []])]⟩

/-- Candidate whose first violating node in walk order is the import. -/
def cand_c8wit : Candidate := ⟨"import os\nprint(os.getcwd())", .ok c8witTree⟩

/-- Parse tree of `print(1+1)`. -/
def c9witTree : PyModule :=
  ⟨[.exprStmt (.call (.name ("print") .load)
      [.binop .add (.constant (.intC 1)) (.constant (.intC 1))])]⟩

/-- Candidate printing a constant (spec scenario 1). -/
def cand_c9wit : Candidate := ⟨"print(1+1)", .ok c9witTree⟩

/-- Parse tree of `import x` followed by `os = 1`: the import is walked
before the store-context `os` name. -/
def c10cexTree : PyModule :=
  ⟨[.imp ["x"], .assign [.name ("os") .store] (.constant (.intC 1))]⟩

/-- Candidate with a prohibited identifier whose rejection reason is the
one about imports. -/
def cand_c10cex : Candidate := ⟨"import x\nos = 1", .ok c10cexTree⟩

/-- Parse tree of `os = 1`: prohibited identifier in store context only. -/
def c10witTree : PyModule :=
  ⟨[.assign [.name ("os") .store] (.constant (.intC 1))]⟩

/-- Candidate assigning to a variable spelled like a prohibited module. -/
def cand_c10wit : Candidate := ⟨"os = 1", .ok c10witTree⟩

theorem esize_pos (e : Expr) : 1 ≤ esize e := by
  cases e <;> simp [esize] <;> omega

theorem ssize_pos (s : Stmt) : 1 ≤ ssize s := by
  cases s <;> simp [ssize] <;> omega

theorem nsize_pos (n : Node) : 1 ≤ nsize n := by
  cases n with
  | mod m => exact Nat.le_add_right 1 _
  | stmt s => exact ssize_pos s
  | expr e => exact esize_pos e

theorem totalSize_nil : totalSize [] = 0 := rfl

theorem totalSize_singleton (n : Node) : totalSize [n] = nsize n := by
  simp [totalSize]

theorem totalSize_cons (n : Node) (ns : List Node) :
    totalSize (n :: ns) = nsize n + totalSize ns := by
  simp [totalSize]

theorem totalSize_append (a b : List Node) :
    totalSize (a ++ b) = totalSize a + totalSize b := by
  simp [totalSize]

theorem totalSize_map_stmt (ss : List Stmt) :
    totalSize (ss.map Node.stmt) = ssizeList ss := by
  induction ss with
  | nil => rfl
  | cons s t ih => simp [totalSize_cons, nsize, ssizeList, ih]

theorem totalSize_map_expr (es : List Expr) :
    totalSize (es.map Node.expr) = esizeList es := by
  induction es with
  | nil => rfl
  | cons e t ih => simp [totalSize_cons, nsize, esizeList, ih]

theorem totalSize_children_lt (n : Node) : totalSize (children n) < nsize n := by
  cases n with
  | mod m =>
      simp only [children, nsize, totalSize_map_stmt]
      omega
  | stmt s =>
      cases s <;>
        simp only [children, nsize, ssize, totalSize_append, totalSize_map_expr,
          totalSize_map_stmt, totalSize_cons, totalSize_singleton, totalSize_nil] <;>
        omega
  | expr e =>
      cases e <;>
        simp only [children, nsize, esize, totalSize_append, totalSize_map_expr,
          totalSize_cons, totalSize_singleton, totalSize_nil] <;>
        omega

theorem totalSize_flatten_le (ns : List Node) :
    totalSize ((ns.map children).flatten) + ns.length ≤ totalSize ns := by
  induction ns with
  | nil => simp [totalSize]
  | cons n t ih =>
      simp only [List.map_cons, List.flatten_cons, totalSize_append,
        totalSize_cons, List.length_cons]
      have := totalSize_children_lt n
      omega

theorem totalSize_eq_zero {ns : List Node} (h : totalSize ns = 0) : ns = [] := by
  cases ns with
  | nil => rfl
  | cons n t =>
      exfalso
      have := nsize_pos n
      rw [totalSize_cons] at h
      omega

/-- Fuel adequacy of the breadth-first walk: any fuel at least the total
size of the pending level list yields the same node sequence, so the fuel
choice in `walk` reaches the fixed point of the traversal. -/
theorem walkSteps_fuel_irrel : ∀ (f g : Nat) (ns : List Node),
    totalSize ns ≤ f → totalSize ns ≤ g → walkSteps f ns = walkSteps g ns := by
  intro f
  induction f with
  | zero =>
      intro g ns hf hg
      have hz : ns = [] := totalSize_eq_zero (Nat.le_zero.mp hf)
      subst hz
      cases g <;> rfl
  | succ f ih =>
      intro g ns hf hg
      cases ns with
      | nil => cases g <;> rfl
      | cons n t =>
          have h1 : 1 ≤ totalSize (n :: t) := by
            have := nsize_pos n
            rw [totalSize_cons]
            omega
          cases g with
          | zero => omega
          | succ g =>
              simp only [walkSteps]
              congr 1
              have hle := totalSize_flatten_le (n :: t)
              rw [List.length_cons] at hle
              apply ih
              · omega
              · omega

theorem findSome?_isSome_of_mem {α β : Type} (f : α → Option β) (l : List α)
    (x : α) (b : β) (hx : x ∈ l) (hf : f x = some b) :
    ∃ r, l.findSome? f = some r := by
  induction l with
  | nil => cases hx
  | cons a t ih =>
      cases hfa : f a with
      | some c => exact ⟨c, by simp [List.findSome?_cons, hfa]⟩
      | none =>
          rcases List.mem_cons.mp hx with hxa | hxt
          · subst hxa
            rw [hf] at hfa
            cases hfa
          · obtain ⟨r, hr⟩ := ih hxt
            exact ⟨r, by simp [List.findSome?_cons, hfa, hr]⟩

theorem isPrefixOf_append_self (l r : List Char) : l.isPrefixOf (l ++ r) = true := by
  induction l with
  | nil => simp [List.isPrefixOf]
  | cons a as ih => simp [List.isPrefixOf, ih]

theorem substrB_middle (x n y : List Char) : substrB n (x ++ n ++ y) = true := by
  induction x with
  | nil =>
      cases n with
      | nil =>
          cases y with
          | nil => rfl
          | cons c t => simp [substrB, List.isPrefixOf]
      | cons a m =>
          have h := isPrefixOf_append_self (a :: m) y
          simp only [List.nil_append, List.cons_append] at h ⊢
          simp [substrB, h]
  | cons c x ih =>
      rw [List.append_assoc] at ih
      simp [List.cons_append, substrB, ih]

/-- Python's `in` finds a string wherever it occurs between two others. -/
theorem containsSub_middle (x n y : String) : containsSub n (x ++ n ++ y) = true := by
  unfold containsSub
  rw [String.data_append, String.data_append]
  exact substrB_middle x.data n.data y.data

theorem runTool_result_sink (c : Candidate) (data : Dataset) (s1 s2 : Sink) :
    (runTool c data s2).result = (runTool c data s1).result := by
  cases hv : validate_expression c with
  | error e => simp [runTool, hv]
  | ok tree =>
      rcases hx : execStmts tree.body (initState data) with ⟨st, r⟩
      cases r <;> simp only [runTool, hv, hx]
      split <;> rfl

/-! Claim theorems. -/

/-- Rejection lemma: if some node of the walked tree triggers a check, the
validator rejects the candidate (with the reason of the first violating
node in walk order). -/
theorem validate_error_of_walk_violation {c : Candidate} {tree : PyModule}
    {n : Node} {r : String}
    (hp : c.parsed = Except.ok tree) (hmem : n ∈ walk tree)
    (hc : checkNode n = some r) :
    ∃ re, validate_expression c = Except.error re := by
  obtain ⟨re, hre⟩ := findSome?_isSome_of_mem checkNode (walk tree) n r hmem hc
  exact ⟨re, by simp only [validate_expression, hp, hre]⟩

/-- C1, as stated, is false: for the candidate `x = df.__class__`, whose
only attribute access is `__class__` (a name containing the
double-underscore marker) in non-callee position, `validate_expression`
ACCEPTS the text instead of rejecting it. -/
theorem c1_counterexample :
    attrNames c1cexTree = ["__class__"] ∧
    containsSub ("__") ("__class__") = true ∧
    validate_expression cand_c1cex = Except.ok c1cexTree :=
  ⟨rfl, rfl, rfl⟩

/-- A scan that finds no violating node yields an accepting traversal. -/
theorem findSome?_eq_none_of_forall {α β : Type} (f : α → Option β) (l : List α)
    (h : ∀ x ∈ l, f x = none) : l.findSome? f = none := by
  induction l with
  | nil => rfl
  | cons a t ih =>
      have ha := h a (List.mem_cons_self a t)
      simp [List.findSome?_cons, ha,
        ih (fun x hx => h x (List.mem_cons_of_mem a hx))]

/-- The first violating node in scan order determines the reported value. -/
theorem findSome?_append_first {α β : Type} (f : α → Option β) (l1 l2 : List α)
    (x : α) (r : β) (h1 : ∀ m ∈ l1, f m = none) (hx : f x = some r) :
    (l1 ++ x :: l2).findSome? f = some r := by
  induction l1 with
  | nil => simp [List.findSome?_cons, hx]
  | cons a t ih =>
      have ha := h1 a (List.mem_cons_self a t)
      simp only [List.cons_append, List.findSome?_cons, ha]
      exact ih (fun m hm => h1 m (List.mem_cons_of_mem a hm))

/-- C1 (amended): the double-underscore rule fires only on call callees.
A bare attribute access triggers no check regardless of its name, so a
candidate whose walked nodes trigger no check at all — in particular one
whose only suspicious construct is a dunder attribute outside callee
position — is accepted; a call whose callee is a dunder-named attribute
forces rejection, and the reported reason names that attribute when the
call is the first violating node in breadth-first walk order (an earlier
violation yields its own reason instead). -/
theorem c1_theorem (c : Candidate) (tree : PyModule)
    (hp : c.parsed = Except.ok tree) :
    (∀ v a x, checkNode (Node.expr (Expr.attributeExpr v a x)) = none) ∧
    (hasDunderCalleeB tree = true →
      ∃ r, validate_expression c = Except.error r) ∧
    (∀ l1 l2 v a x args,
      walk tree =
        l1 ++ Node.expr (Expr.call (Expr.attributeExpr v a x) args) :: l2 →
      (∀ m ∈ l1, checkNode m = none) →
      containsSub ("__") a = true →
      validate_expression c =
        Except.error ("Expression not valid. Hazardous expression detected: " ++ a)) ∧
    ((∀ n ∈ walk tree, checkNode n = none) →
      validate_expression c = Except.ok tree) := by
  refine ⟨fun v a x => rfl, ?_, ?_, ?_⟩
  · intro hd
    obtain ⟨n, hmem, hnp⟩ := List.any_eq_true.mp hd
    have hcn : ∃ rr, checkNode n = some rr := by
      cases n with
      | mod m => simp at hnp
      | stmt s => simp at hnp
      | expr e =>
          cases e with
          | call f args =>
              cases f with
              | attributeExpr v a x =>
                  simp at hnp
                  exact ⟨"Expression not valid. Hazardous expression detected: " ++ a,
                    by simp [checkNode, hnp]⟩
              | name i x => simp at hnp
              | constant k => simp at hnp
              | subscript v i x => simp at hnp
              | binop o l rr => simp at hnp
              | call f2 a2 => simp at hnp
          | name i x => simp at hnp
          | constant k => simp at hnp
          | attributeExpr v a x => simp at hnp
          | subscript v i x => simp at hnp
          | binop o l rr => simp at hnp
    obtain ⟨rr, hcr⟩ := hcn
    exact validate_error_of_walk_violation hp hmem hcr
  · intro l1 l2 v a x args hw h1 hd
    have hcn : checkNode (Node.expr (Expr.call (Expr.attributeExpr v a x) args)) =
        some ("Expression not valid. Hazardous expression detected: " ++ a) := by
      simp [checkNode, hd]
    have hfs : (walk tree).findSome? checkNode =
        some ("Expression not valid. Hazardous expression detected: " ++ a) := by
      rw [hw]
      exact findSome?_append_first checkNode l1 l2 _ _ h1 hcn
    simp only [validate_expression, hp, hfs]
  · intro hall
    have hfs : (walk tree).findSome? checkNode = none :=
      findSome?_eq_none_of_forall checkNode (walk tree) hall
    simp only [validate_expression, hp, hfs]

/-- Witness for C1 (amended): at `df.__getattribute__('shape')` the dunder
callee is the first violating node of the walk (module root and statement
precede it and fire no check), so rejection names `__getattribute__`;
at `x = df.__class__` no walked node fires any check, so the acceptance
clause applies. -/
theorem c1_witness :
    validate_expression cand_c1wit =
      Except.error
        ("Expression not valid. Hazardous expression detected: " ++ "__getattribute__") ∧
    validate_expression cand_c1cex = Except.ok c1cexTree := by
  have h1 := c1_theorem cand_c1wit c1witTree rfl
  have h2 := c1_theorem cand_c1cex c1cexTree rfl
  refine ⟨?_, h2.2.2.2 (by decide)⟩
  exact h1.2.2.1
    [Node.mod c1witTree, Node.stmt (Stmt.exprStmt c1witCall)]
    [Node.expr c1witCallee, Node.expr (Expr.constant (Const.strC "shape")),
      Node.expr (Expr.name ("df") Ctx.load)]
    (Expr.name ("df") Ctx.load) ("__getattribute__") Ctx.load
    [Expr.constant (Const.strC "shape")]
    rfl (by decide) rfl

/-- C2: on every path through the executor — validation rejection, normal
completion, empty-output completion, and exception — the process-wide
standard-output sink ends equal to its pre-execution value. -/
theorem c2_theorem (c : Candidate) (data : Dataset) (s : Sink) :
    (runTool c data s).stdout = s := by
  cases hv : validate_expression c with
  | error e => simp [runTool, hv]
  | ok tree =>
      rcases hx : execStmts tree.body (initState data) with ⟨st, r⟩
      cases r with
      | error e2 => simp [runTool, hv, hx]
      | ok u =>
          simp only [runTool, hv, hx]
          split <;> rfl

/-- C3: when a validated candidate raises during execution, the executor
catches the exception and returns (not raises) the failure string
containing the exception message and the original generated source text. -/
theorem c3_theorem (c : Candidate) (tree : PyModule) (data : Dataset) (s : Sink)
    (st : ExecState) (e : String)
    (hv : validate_expression c = Except.ok tree)
    (hx : execStmts tree.body (initState data) = (st, Except.error e)) :
    (runTool c data s).result =
      ToolResult.returned
        ("Error executing Pandas code: " ++ e ++ "\nGenerated code:\n" ++ c.text) ∧
    containsSub e
      ("Error executing Pandas code: " ++ e ++ "\nGenerated code:\n" ++ c.text) = true ∧
    containsSub c.text
      ("Error executing Pandas code: " ++ e ++ "\nGenerated code:\n" ++ c.text) = true ∧
    (∀ m, (runTool c data s).result ≠ ToolResult.blocked m) := by
  have hrun : (runTool c data s).result =
      ToolResult.returned
        ("Error executing Pandas code: " ++ e ++ "\nGenerated code:\n" ++ c.text) := by
    simp [runTool, hv, hx]
  refine ⟨hrun, ?_, ?_, ?_⟩
  · have h := containsSub_middle ("Error executing Pandas code: ") e
      ("\nGenerated code:\n" ++ c.text)
    rw [String.append_assoc]
    exact h
  · have h := containsSub_middle
      ("Error executing Pandas code: " ++ e ++ "\nGenerated code:\n") c.text ("")
    simpa using h
  · intro m hm
    rw [hrun] at hm
    exact ToolResult.noConfusion hm

/-- Witness for C3 at `x = 1/0` against an empty dataset: the returned
failure string carries the `ZeroDivisionError` message and the source. -/
theorem c3_witness :
    (runTool cand_c3wit [] (Sink.external 0)).result =
      ToolResult.returned
        ("Error executing Pandas code: " ++ "division by zero" ++
          "\nGenerated code:\n" ++ cand_c3wit.text) :=
  (c3_theorem cand_c3wit c3witTree [] (Sink.external 0) (initState [])
    ("division by zero") rfl rfl).1

/-- C4: when validation fails, the executor raises the blocking
`RuntimeError` wrapping the validation reason; the candidate is never
executed, the output sink is never redirected (empty event trace), and the
dataset is untouched. -/
theorem c4_theorem (c : Candidate) (data : Dataset) (s : Sink) (r : String)
    (hv : validate_expression c = Except.error r) :
    runTool c data s =
      { result := ToolResult.blocked ("Code not allowed: " ++ r)
        stdout := s
        dataFinal := data
        events := [] } := by
  simp [runTool, hv]

/-- Witness for C4 at `import os` / `print(os.getcwd())`: validation fails
with the import reason and the executor blocks without executing. -/
theorem c4_witness :
    validate_expression cand_c4wit =
      Except.error ("Expression not valid. Import not allowed.") ∧
    runTool cand_c4wit [] (Sink.external 0) =
      { result := ToolResult.blocked
          ("Code not allowed: " ++ "Expression not valid. Import not allowed.")
        stdout := Sink.external 0
        dataFinal := []
        events := [] } :=
  ⟨rfl, c4_theorem cand_c4wit [] (Sink.external 0)
    ("Expression not valid. Import not allowed.") rfl⟩

/-- C6: the restricted builtin table binds exactly the fourteen enumerated
names in source order; the globals expose exactly `__builtins__`, `df`
(bound to the dataset reference) and `pd`; and every execution starts from
a freshly constructed state — empty locals, empty capture buffer, the
dataset as passed in. -/
theorem c6_theorem :
    safe_builtins.map Prod.fst =
      ["print", "len", "range", "str", "int", "float", "list", "dict", "set",
        "min", "max", "sum", "enumerate", "zip"] ∧
    safe_globals.map Prod.fst = ["__builtins__", "df", "pd"] ∧
    List.lookup ("df") safe_globals = some Value.dfHandle ∧
    ∀ data : Dataset,
      (initState data).locals = [] ∧ (initState data).out = "" ∧
        (initState data).ds = data :=
  ⟨rfl, rfl, rfl, fun _ => ⟨rfl, rfl, rfl⟩⟩

/-- C7: when a validated candidate executes without raising, the executor
returns the fixed no-visible-output sentinel if the captured text strips to
empty, and the stripped captured text otherwise. -/
theorem c7_theorem (c : Candidate) (tree : PyModule) (data : Dataset) (s : Sink)
    (st : ExecState) (u : Unit)
    (hv : validate_expression c = Except.ok tree)
    (hx : execStmts tree.body (initState data) = (st, Except.ok u)) :
    (pyStrip st.out = "" →
      (runTool c data s).result = ToolResult.returned NO_OUTPUT_MSG) ∧
    (pyStrip st.out ≠ "" →
      (runTool c data s).result = ToolResult.returned (pyStrip st.out)) := by
  constructor
  · intro he
    simp [runTool, hv, hx, he]
  · intro hne
    simp [runTool, hv, hx, hne]

/-- Witness for C7 at `x = 5` (spec scenario 5): the program runs, prints
nothing, and the sentinel message is returned. -/
theorem c7_witness :
    pyStrip ({ ds := [], locals := [("x", Value.intV 5)], out := "" } : ExecState).out = "" ∧
    (runTool cand_c7wit [] (Sink.external 0)).result =
      ToolResult.returned NO_OUTPUT_MSG :=
  ⟨rfl,
    (c7_theorem cand_c7wit c7witTree [] (Sink.external 0)
      { ds := [], locals := [("x", Value.intV 5)], out := "" } () rfl rfl).1 rfl⟩

/-- C8, as stated, is false: the candidate `sys` / `if 1:` / `import os`
contains an import statement, but the breadth-first walk reaches the `sys`
name first, so the rejection reason is the module one and does not mention
the word import. -/
theorem c8_counterexample :
    hasImportB c8cexTree = true ∧
    validate_expression cand_c8cex =
      Except.error ("Expression not valid. Module not allowed.") ∧
    containsSub ("mport") ("Expression not valid. Module not allowed.") = false :=
  ⟨rfl, rfl, rfl⟩

/-- C8 (amended): every candidate containing an import statement (direct or
`from` form) anywhere in its tree is rejected and never executed — the
executor blocks with an empty event trace — and the reason mentions
"import" whenever the import is the first violating node in walk order
(otherwise an earlier violation's reason is reported). -/
theorem c8_theorem (c : Candidate) (tree : PyModule) (data : Dataset) (s : Sink)
    (hp : c.parsed = Except.ok tree) (hi : hasImportB tree = true) :
    ∃ r, validate_expression c = Except.error r ∧
      runTool c data s =
        { result := ToolResult.blocked ("Code not allowed: " ++ r)
          stdout := s
          dataFinal := data
          events := [] } := by
  obtain ⟨n, hmem, hnp⟩ := List.any_eq_true.mp hi
  have hcn : checkNode n = some ("Expression not valid. Import not allowed.") := by
    cases n with
    | mod m => simp at hnp
    | expr e => simp at hnp
    | stmt s2 => cases s2 <;> first | rfl | simp at hnp
  obtain ⟨re, hre⟩ := validate_error_of_walk_violation hp hmem hcn
  exact ⟨re, hre, by simp [runTool, hre]⟩

/-- Witness for C8 (amended) at `import os` / `print(os.getcwd())`: the
first violation is the import, the candidate is blocked unexecuted, and the
reason mentions the word import. -/
theorem c8_witness :
    hasImportB c8witTree = true ∧
    (∃ r, validate_expression cand_c8wit = Except.error r ∧
      runTool cand_c8wit [] (Sink.external 0) =
        { result := ToolResult.blocked ("Code not allowed: " ++ r)
          stdout := Sink.external 0
          dataFinal := []
          events := [] }) ∧
    validate_expression cand_c8wit =
      Except.error ("Expression not valid. Import not allowed.") ∧
    containsSub ("mport") ("Expression not valid. Import not allowed.") = true :=
  ⟨rfl, c8_theorem cand_c8wit c8witTree [] (Sink.external 0) rfl rfl, rfl, rfl⟩

/-- C9: running the same candidate twice in sequence, when the first run
leaves the dataset unchanged, returns the same result string both times —
the executor threads no other state between calls (the namespace and
capture buffer are rebuilt fresh, and the result does not depend on the
previous sink value). -/
theorem c9_theorem (c : Candidate) (data : Dataset) (s1 s2 : Sink)
    (h : (runTool c data s1).dataFinal = data) :
    (runTool c ((runTool c data s1).dataFinal) s2).result =
      (runTool c data s1).result := by
  rw [h]
  exact runTool_result_sink c data s1 s2

/-- Witness for C9 at `print(1+1)` (spec scenario 1): both sequential runs
return `2`. -/
theorem c9_witness :
    (runTool cand_c9wit [] (Sink.external 0)).dataFinal = [] ∧
    (runTool cand_c9wit
        ((runTool cand_c9wit [] (Sink.external 0)).dataFinal)
        (Sink.external 1)).result =
      (runTool cand_c9wit [] (Sink.external 0)).result ∧
    (runTool cand_c9wit [] (Sink.external 0)).result =
      ToolResult.returned ("2") :=
  ⟨rfl, c9_theorem cand_c9wit [] (Sink.external 0) (Sink.external 1) rfl, rfl⟩

/-- C10, as stated, is false in its reason clause: the candidate
`import x` / `os = 1` contains the identifier `os` as a bare Name in store
context, but the walk meets the import first, so the reason is the import
one rather than `Module not allowed`. -/
theorem c10_counterexample :
    hasProhibitedNameB c10cexTree = true ∧
    validate_expression cand_c10cex =
      Except.error ("Expression not valid. Import not allowed.") ∧
    ("Expression not valid. Import not allowed.") ≠
      ("Expression not valid. Module not allowed.") :=
  ⟨rfl, rfl, by decide⟩

/-- C10 (amended): the prohibited-module check matches every bare Name node
regardless of context (load, store or delete), so any candidate containing
such an identifier — even as a mere assignment target — is rejected; the
reason is `Module not allowed` when that Name is the first violating node
in walk order. -/
theorem c10_theorem (c : Candidate) (tree : PyModule)
    (hp : c.parsed = Except.ok tree) (hn : hasProhibitedNameB tree = true) :
    ∃ r, validate_expression c = Except.error r := by
  obtain ⟨n, hmem, hnp⟩ := List.any_eq_true.mp hn
  have hcn : checkNode n = some ("Expression not valid. Module not allowed.") := by
    cases n with
    | mod m => simp at hnp
    | stmt s2 => simp at hnp
    | expr e =>
        cases e with
        | name i x =>
            simp at hnp
            simp [checkNode, hnp]
        | constant k => simp at hnp
        | attributeExpr v a x => simp at hnp
        | call f args => simp at hnp
        | subscript v i x => simp at hnp
        | binop o l rr => simp at hnp
  exact validate_error_of_walk_violation hp hmem hcn

/-- Witness for C10 (amended) at `os = 1`: a store-context use of `os`
that never touches the real module is still rejected with the module
reason. -/
theorem c10_witness :
    hasProhibitedNameB c10witTree = true ∧
    (∃ r, validate_expression cand_c10wit = Except.error r) ∧
    validate_expression cand_c10wit =
      Except.error ("Expression not valid. Module not allowed.") :=
  ⟨rfl, c10_theorem cand_c10wit c10witTree rfl rfl, rfl⟩

end ExcelChatbot
